import Mathlib

/-!
Verification of `rtl/spi_ram_dual.py` (`SpiRamDualQuad`): a Wishbone-to-SPI
bridge driving two paired SPI RAM chips.  The development shallowly embeds
the pure command formatter `_format_cmd`, the construction-time checks of
`SpiRamDualQuad.__init__`, and the synchronous FSM (`IDLE`, `SEND_CMD`,
`SEND_ADDR`, `SEND_DATA`, `RECV_DATA_DUMMY`, `RECV_DATA`, `WAIT_SEND_MORE`,
`WAIT_RECV_MORE`) as an explicit step function on a register record, with
machine-integer behaviour modelled by `% 2 ^ w` on `Nat`.
-/

set_option maxHeartbeats 4000000
set_option maxRecDepth 100000

namespace SpiRamDual

/-- Opcode constants from the top of `spi_ram_dual.py`. -/
def _FAST_READ : Nat := 0x0b

def _DIOFR : Nat := 0xbb

def _QIOFR : Nat := 0xeb

def _WRITE : Nat := 0x02

def _QIOW : Nat := 0x38

/-- `_format_cmd(cmd, spi_width)`: start from the all-ones word of
`8 * spi_width` bits and, for each opcode bit `b` in `0..7` that is zero,
clear the single bit at wire position `b * spi_width`.  Python's
`c &= ~(1 << k)` on an unbounded int is modelled by AND-ing with the
all-ones word XOR `1 <<< k`; since `c` always stays below
`2 ^ (8 * spi_width)` this clears exactly bit `k`. -/
def _format_cmd (cmd spi_width : Nat) : Nat :=
  (List.range 8).foldl
    (fun c b =>
      if (cmd >>> b) % 2 = 0 then
        c &&& ((2 ^ (8 * spi_width) - 1) ^^^ (1 <<< (b * spi_width)))
      else c)
    (2 ^ (8 * spi_width) - 1)

/-- Construction-time admissibility of a lane-width pair, following
`SpiRamDualQuad.__init__` in order: `assert spi_width >= 2`,
`assert len(pads_1.dq) == len(pads_2.dq)`, the `read_cmd_params`
dictionary lookup (keys 4, 2, 1) and the `write_cmd_params` dictionary
lookup (keys 4 and 1 only).  A failed assert or a missing dictionary key
raises at construction time, so the build succeeds exactly when this
returns `true`. -/
def construction_ok (spi_width_1 spi_width_2 : Nat) : Bool :=
  decide (2 ≤ spi_width_1) && (spi_width_1 == spi_width_2) &&
    (spi_width_1 == 4 || spi_width_1 == 2 || spi_width_1 == 1) &&
    (spi_width_1 == 4 || spi_width_1 == 1)

/-- Static configuration of `SpiRamDualQuad`: `spi_width = len(pads_1.dq)`
(lanes per device), `wbone_width = len(bus.dat_r)` (32 for the default
Wishbone interface) and the `dummy` constructor argument (default 5). -/
structure Config where
  spi_width : Nat
  wbone_width : Nat
  dummy : Nat
deriving DecidableEq, Repr

/-- `cmd_width` from `read_cmd_params`: every entry pairs the formatted
command with `spi_width * 8` bits. -/
def cmd_width (c : Config) : Nat := 8 * c.spi_width

/-- `addr_width = 24` in the source. -/
def addr_width : Nat := 24

/-- Width of the shift register: `Signal(max(cmd_width, addr_width, wbone_width))`. -/
def sr_width (c : Config) : Nat := max (cmd_width c) (max addr_width c.wbone_width)

/-- Per-cycle left-shift amount in `SEND_CMD` and `SEND_ADDR`:
`Cat(Signal(cmd_width - wbone_width + spi_width), sr)` prepends that many
zero bits below `sr`.  (For the only buildable configuration,
`spi_width = 4` and `wbone_width = 32`, this is `spi_width`.) -/
def shiftA (c : Config) : Nat := cmd_width c + c.spi_width - c.wbone_width

/-- Per-cycle left-shift amount in `SEND_DATA`:
`Cat(Signal(cmd_width - wbone_width + spi_width * 2), sr)`. -/
def shiftB (c : Config) : Nat := cmd_width c + 2 * c.spi_width - c.wbone_width

/-- `read_cmd` selected from `read_cmd_params` by `spi_width`. -/
def read_cmd (c : Config) : Nat :=
  if c.spi_width = 4 then _format_cmd _QIOFR 4
  else if c.spi_width = 2 then _format_cmd _DIOFR 2
  else _format_cmd _FAST_READ 1

/-- `write_cmd` selected from `write_cmd_params` by `spi_width`
(the dictionary only has keys 4 and 1). -/
def write_cmd (c : Config) : Nat :=
  if c.spi_width = 4 then _format_cmd _QIOW 4 else _format_cmd _WRITE 1

/-- The states of `self.submodules.fsm`. -/
inductive FsmState
  | IDLE
  | SEND_CMD
  | SEND_ADDR
  | SEND_DATA
  | RECV_DATA_DUMMY
  | RECV_DATA
  | WAIT_SEND_MORE
  | WAIT_RECV_MORE
deriving DecidableEq, Repr

/-- The synchronous registers: the FSM state, `cycle_counter` (a 5-bit
`Signal(5)`, so it wraps modulo 32), the shift register `sr`, the cached
direction `is_write`, and `next_addr` (`Signal(32)`). -/
structure Regs where
  fsm : FsmState
  cycle_counter : Nat
  sr : Nat
  is_write : Bool
  next_addr : Nat
deriving DecidableEq, Repr

/-- Wishbone-side and pad-side inputs sampled in one cycle:
`bus.cyc`, `bus.stb`, `bus.we`, `bus.adr`, `bus.dat_w`, and the sampled
pad inputs `dq1.i`, `dq2.i`. -/
structure BusIn where
  cyc : Bool
  stb : Bool
  we : Bool
  adr : Nat
  dat_w : Nat
  dq1_i : Nat
  dq2_i : Nat
deriving DecidableEq, Repr

/-- Combinational outputs of one cycle: `bus.ack`, `cs_n`, whether the SPI
clock is driven, `dq_oe`, `gang_outputs`, and the pad outputs
`dq1.o` / `dq2.o`. -/
structure Out where
  ack : Bool
  cs_n : Bool
  clk : Bool
  dq_oe : Bool
  gang : Bool
  dq1_o : Nat
  dq2_o : Nat
deriving DecidableEq, Repr

/-- `dq1.o.eq(sr[-spi_width:])`: device A always sees the top `spi_width`
bits of the shift register. -/
def dq1_out (c : Config) (sr : Nat) : Nat := sr / 2 ^ (sr_width c - c.spi_width)

/-- `If(gang_outputs, dq2.o.eq(sr[-spi_width:])).Else(dq2.o.eq(sr[-(spi_width*2):-spi_width]))`:
device B sees the same top bits when ganged, otherwise the next
`spi_width` bits down. -/
def dq2_out (c : Config) (sr : Nat) (gang : Bool) : Nat :=
  if gang then sr / 2 ^ (sr_width c - c.spi_width)
  else sr / 2 ^ (sr_width c - 2 * c.spi_width) % 2 ^ c.spi_width

/-- `NextValue(sr, Cat(dq1.i, dq2.i, sr[:-spi_width*2]))` in `RECV_DATA`:
the two devices' lanes enter at the bottom and the old low bits shift up. -/
def recv_shift (c : Config) (sr : Nat) (i : BusIn) : Nat :=
  (i.dq1_i % 2 ^ c.spi_width + i.dq2_i % 2 ^ c.spi_width * 2 ^ c.spi_width +
    sr % 2 ^ (sr_width c - 2 * c.spi_width) * 2 ^ (2 * c.spi_width)) % 2 ^ sr_width c

/-- One synchronous cycle of `SpiRamDualQuad`: given the current registers
and the cycle's inputs, produce the combinational outputs of this cycle
and the registers at the next clock edge.  Each branch transcribes the
corresponding `fsm.act` block, with migen's last-assignment-wins
semantics for `NextValue`/`NextState` resolved inside the `If`s, the
5-bit `cycle_counter` wrapping modulo 32, and register loads truncated to
their widths. -/
def step (c : Config) (r : Regs) (i : BusIn) : Out × Regs :=
  match r.fsm with
  | .IDLE =>
      ({ ack := false, cs_n := true, clk := false, dq_oe := false, gang := false,
         dq1_o := dq1_out c r.sr, dq2_o := dq2_out c r.sr false },
       if i.cyc && i.stb then
         { fsm := .SEND_CMD, cycle_counter := 0,
           sr := if i.we then write_cmd c else read_cmd c,
           is_write := r.is_write, next_addr := r.next_addr }
       else
         { r with cycle_counter := 0 })
  | .SEND_CMD =>
      ({ ack := false, cs_n := false, clk := true, dq_oe := true, gang := true,
         dq1_o := dq1_out c r.sr, dq2_o := dq2_out c r.sr true },
       if r.cycle_counter = cmd_width c / c.spi_width - 1 then
         { fsm := .SEND_ADDR, cycle_counter := 0,
           sr := i.adr * 2 % 2 ^ sr_width c,
           is_write := i.we, next_addr := (i.adr + 1) % 2 ^ 32 }
       else
         { fsm := .SEND_CMD, cycle_counter := (r.cycle_counter + 1) % 32,
           sr := r.sr * 2 ^ shiftA c % 2 ^ sr_width c,
           is_write := i.we, next_addr := r.next_addr })
  | .SEND_ADDR =>
      ({ ack := false, cs_n := false, clk := true, dq_oe := true, gang := true,
         dq1_o := dq1_out c r.sr, dq2_o := dq2_out c r.sr true },
       if r.cycle_counter = addr_width / c.spi_width - 1 then
         (if r.is_write then
            { fsm := .SEND_DATA, cycle_counter := 0,
              sr := i.dat_w % 2 ^ sr_width c,
              is_write := r.is_write, next_addr := r.next_addr }
          else
            { fsm := .RECV_DATA_DUMMY, cycle_counter := 0,
              sr := r.sr * 2 ^ shiftA c % 2 ^ sr_width c,
              is_write := r.is_write, next_addr := r.next_addr })
       else
         { fsm := .SEND_ADDR, cycle_counter := (r.cycle_counter + 1) % 32,
           sr := r.sr * 2 ^ shiftA c % 2 ^ sr_width c,
           is_write := r.is_write, next_addr := r.next_addr })
  | .SEND_DATA =>
      (if r.cycle_counter = c.wbone_width / c.spi_width / 2 - 1 then
         ({ ack := true, cs_n := false, clk := true, dq_oe := true, gang := false,
            dq1_o := dq1_out c r.sr, dq2_o := dq2_out c r.sr false },
          { fsm := .WAIT_SEND_MORE, cycle_counter := 0,
            sr := r.sr * 2 ^ shiftB c % 2 ^ sr_width c,
            is_write := r.is_write, next_addr := r.next_addr })
       else
         ({ ack := false, cs_n := false, clk := true, dq_oe := true, gang := false,
            dq1_o := dq1_out c r.sr, dq2_o := dq2_out c r.sr false },
          { fsm := .SEND_DATA, cycle_counter := (r.cycle_counter + 1) % 32,
            sr := r.sr * 2 ^ shiftB c % 2 ^ sr_width c,
            is_write := r.is_write, next_addr := r.next_addr }))
  | .RECV_DATA_DUMMY =>
      ({ ack := false, cs_n := false, clk := true, dq_oe := false, gang := false,
         dq1_o := dq1_out c r.sr, dq2_o := dq2_out c r.sr false },
       if r.cycle_counter = c.dummy then
         { fsm := .RECV_DATA, cycle_counter := 0, sr := r.sr,
           is_write := r.is_write, next_addr := r.next_addr }
       else
         { fsm := .RECV_DATA_DUMMY, cycle_counter := (r.cycle_counter + 1) % 32,
           sr := r.sr, is_write := r.is_write, next_addr := r.next_addr })
  | .RECV_DATA =>
      (if r.cycle_counter = c.wbone_width / c.spi_width / 2 then
         ({ ack := true, cs_n := false, clk := true, dq_oe := false, gang := false,
            dq1_o := dq1_out c r.sr, dq2_o := dq2_out c r.sr false },
          { fsm := .WAIT_RECV_MORE, cycle_counter := 0,
            sr := recv_shift c r.sr i,
            is_write := r.is_write, next_addr := r.next_addr })
       else
         ({ ack := false, cs_n := false, clk := true, dq_oe := false, gang := false,
            dq1_o := dq1_out c r.sr, dq2_o := dq2_out c r.sr false },
          { fsm := .RECV_DATA, cycle_counter := (r.cycle_counter + 1) % 32,
            sr := recv_shift c r.sr i,
            is_write := r.is_write, next_addr := r.next_addr }))
  | .WAIT_SEND_MORE =>
      ({ ack := false, cs_n := false, clk := false, dq_oe := false, gang := false,
         dq1_o := dq1_out c r.sr, dq2_o := dq2_out c r.sr false },
       if i.cyc && i.stb then
         (if i.adr = r.next_addr ∧ i.we = true then
            { fsm := .SEND_DATA, cycle_counter := r.cycle_counter, sr := r.sr,
              is_write := r.is_write, next_addr := (i.adr + 1) % 2 ^ 32 }
          else
            { r with fsm := .IDLE })
       else r)
  | .WAIT_RECV_MORE =>
      ({ ack := false, cs_n := false, clk := false, dq_oe := false, gang := false,
         dq1_o := dq1_out c r.sr, dq2_o := dq2_out c r.sr false },
       if i.cyc && i.stb then
         (if i.adr = r.next_addr ∧ i.we = false then
            { fsm := .RECV_DATA, cycle_counter := r.cycle_counter, sr := r.sr,
              is_write := r.is_write, next_addr := (i.adr + 1) % 2 ^ 32 }
          else
            { r with fsm := .IDLE })
       else r)

/-- Iterate `step` for `n` cycles against an input stream. -/
def run (c : Config) (ins : Nat → BusIn) (r : Regs) : Nat → Regs
  | 0 => r
  | n + 1 => (step c (run c ins r n) (ins n)).2

/-- The `bus.ack` output on cycle `n` of a run. -/
def ackAt (c : Config) (ins : Nat → BusIn) (r : Regs) (n : Nat) : Bool :=
  (step c (run c ins r n) (ins n)).1.ack

/-- The only configuration `SpiRamDualQuad` can actually be built with:
quad lanes, the default 32-bit Wishbone word and the default `dummy=5`. -/
def quadCfg : Config := { spi_width := 4, wbone_width := 32, dummy := 5 }

/-- A requester holding a read of address `a` on the bus every cycle. -/
def constRead (a : Nat) : Nat → BusIn :=
  fun _ => { cyc := true, stb := true, we := false, adr := a, dat_w := 0,
             dq1_i := 1, dq2_i := 2 }

/-- A requester holding a write of `v` to address `a` on the bus every cycle. -/
def constWrite (a v : Nat) : Nat → BusIn :=
  fun _ => { cyc := true, stb := true, we := true, adr := a, dat_w := v,
             dq1_i := 0, dq2_i := 0 }

/-- Power-on register state: FSM in `IDLE`, all registers at their reset
value. -/
def resetRegs : Regs :=
  { fsm := .IDLE, cycle_counter := 0, sr := 0, is_write := false, next_addr := 0 }

/-- Register state on the first cycle of `SEND_CMD` for a cold-start read:
what `IDLE` hands over after observing a read request. -/
def sendCmdRegs : Regs :=
  { fsm := .SEND_CMD, cycle_counter := 0, sr := read_cmd quadCfg,
    is_write := false, next_addr := 0 }

/-- Register state in `WAIT_RECV_MORE` after a read of address 9 retired:
`next_addr` holds 10 and the counter was reset on leaving `RECV_DATA`. -/
def waitRecvRegs : Regs :=
  { fsm := .WAIT_RECV_MORE, cycle_counter := 0, sr := 0x12345678,
    is_write := false, next_addr := 10 }

/-- Register state in `WAIT_SEND_MORE` after a write of address 9 retired:
`next_addr` holds 10, and the residue of the data phase is still in `sr`. -/
def waitSendRegs : Regs :=
  { fsm := .WAIT_SEND_MORE, cycle_counter := 0, sr := 0xCAFEBABE,
    is_write := true, next_addr := 10 }

/-- Register state on the last `SEND_ADDR` cycle of a write
(`cycle_counter = 24/4 - 1`). -/
def sendAddrRegs : Regs :=
  { fsm := .SEND_ADDR, cycle_counter := 5, sr := 0x00001200,
    is_write := true, next_addr := 10 }

/-- Register state on the first cycle of `SEND_DATA`. -/
def sendDataRegs : Regs :=
  { fsm := .SEND_DATA, cycle_counter := 0, sr := 0xFEEDF00D,
    is_write := true, next_addr := 10 }

/-- Register state on the first cycle of `RECV_DATA_DUMMY`. -/
def dummyRegs : Regs :=
  { fsm := .RECV_DATA_DUMMY, cycle_counter := 0, sr := 0, is_write := false,
    next_addr := 10 }

/-- Register state on the first cycle of `RECV_DATA`. -/
def recvDataRegs : Regs :=
  { fsm := .RECV_DATA, cycle_counter := 0, sr := 0, is_write := false,
    next_addr := 10 }

/-- A quad configuration whose `dummy` argument (32) cannot be matched by
the 5-bit `cycle_counter`. -/
def dummy32Cfg : Config := { spi_width := 4, wbone_width := 32, dummy := 32 }

/-- Claim C4: for every 8-bit opcode `o` and `lanes ∈ {1,2,4}`,
`_format_cmd o lanes` is the `8*lanes`-bit word whose bit at wire
position `b*lanes` equals bit `b` of `o` for `b` in `0..7`, with every
other bit set to 1; in particular `_format_cmd 0xEB 4 = 0xFFFEFEFF`. -/
theorem format_cmd_interleave_spec :
    (∀ o, o < 256 → ∀ l ∈ ([1, 2, 4] : List Nat),
      _format_cmd o l < 2 ^ (8 * l) ∧
      (∀ b, b < 8 → (_format_cmd o l).testBit (b * l) = o.testBit b) ∧
      (∀ j, j < 8 * l → ¬ l ∣ j → (_format_cmd o l).testBit j = true)) ∧
    _format_cmd _QIOFR 4 = 0xFFFEFEFF := by decide

/-- Witness for C4 at the quad-I/O fast-read opcode: bit 2 of `0xEB`
appears at wire position `2 * 4` of the formatted word. -/
theorem format_cmd_interleave_spec_witness :
    (_format_cmd 0xEB 4).testBit (2 * 4) = (0xEB : Nat).testBit 2 :=
  ((format_cmd_interleave_spec.1 0xEB (by decide) 4 (by decide)).2.1 2 (by decide))

/-- Claim C8: at lane count 1 the command formatter is the identity on
8-bit opcodes. -/
theorem format_cmd_identity_lane1 : ∀ o, o < 256 → _format_cmd o 1 = o := by
  decide

/-- Witness for C8 at the single-lane write opcode `0x02`. -/
theorem format_cmd_identity_lane1_witness : _format_cmd _WRITE 1 = _WRITE :=
  format_cmd_identity_lane1 _WRITE (by decide)

/-- Counterexample to claim C5: dual lanes (`spi_width = 2`) with matched
pads, and single lanes with matched pads, both lie in the claim's
"construction succeeds" set `{1,2,4}`, yet construction fails — the
`write_cmd_params` dictionary has no key 2, and `assert spi_width >= 2`
rejects 1. -/
theorem construction_dual_fails_cex :
    construction_ok 2 2 = false ∧ construction_ok 1 1 = false := by decide

/-- Claim C5 as amended: construction succeeds exactly when both paired
devices are configured with 4 lanes; any other lane count (inside or
outside `{1,2,4}`), or mismatched lane counts, is fatal at construction
time. -/
theorem construction_ok_iff_quad :
    ∀ spi_width_1 spi_width_2 : Nat,
      construction_ok spi_width_1 spi_width_2 = true ↔
        (spi_width_1 = 4 ∧ spi_width_2 = 4) := by
  intro w1 w2
  simp only [construction_ok, Bool.and_eq_true, Bool.or_eq_true, beq_iff_eq,
    decide_eq_true_eq]
  omega

/-- Witness for the amended C5: the quad-quad pairing builds. -/
theorem construction_ok_iff_quad_witness : construction_ok 4 4 = true :=
  (construction_ok_iff_quad 4 4).mpr ⟨rfl, rfl⟩

/-- Counterexample to claim C1: a pending read at `next_addr` observed in
`WAIT_RECV_MORE` jumps directly to `RECV_DATA` on the very next cycle —
there is no fresh dummy window (`RECV_DATA_DUMMY`) before the data
phase, contrary to the claim. -/
theorem burst_read_skips_dummy_cex :
    (step quadCfg waitRecvRegs (constRead 10 0)).2.fsm = .RECV_DATA ∧
    ¬ (step quadCfg waitRecvRegs (constRead 10 0)).2.fsm = .RECV_DATA_DUMMY := by
  decide

/-- Claim C1 as amended: in `WaitMore(dir)`, a pending request with the
same direction and address `next_addr` skips command and address phases
entirely, going straight to `SEND_DATA` for a write and straight to
`RECV_DATA` (with no dummy window) for a read, and `next_addr` is
updated to the new address plus 1 (modulo the 32-bit register width). -/
theorem burst_continuation_amended (c : Config) (r : Regs) (i : BusIn)
    (hcyc : i.cyc = true) (hstb : i.stb = true) (haddr : i.adr = r.next_addr) :
    (r.fsm = .WAIT_SEND_MORE → i.we = true →
      (step c r i).2.fsm = .SEND_DATA ∧
      (step c r i).2.next_addr = (i.adr + 1) % 2 ^ 32) ∧
    (r.fsm = .WAIT_RECV_MORE → i.we = false →
      (step c r i).2.fsm = .RECV_DATA ∧
      (step c r i).2.next_addr = (i.adr + 1) % 2 ^ 32) := by
  obtain ⟨fsm, cnt, sr, iw, na⟩ := r
  constructor <;> intro hf hwe <;> simp only at hf <;> subst hf <;>
    simp [step, hcyc, hstb, haddr, hwe]

/-- Witness for the amended C1: continuing the read burst at address 10. -/
theorem burst_continuation_amended_witness :
    (step quadCfg waitRecvRegs (constRead 10 0)).2.fsm = .RECV_DATA ∧
    (step quadCfg waitRecvRegs (constRead 10 0)).2.next_addr =
      ((constRead 10 0).adr + 1) % 2 ^ 32 :=
  (burst_continuation_amended quadCfg waitRecvRegs (constRead 10 0)
    rfl rfl rfl).2 rfl rfl

/-- Counterexample to claim C2: for the buildable configuration (4 lanes,
32-bit bus word, `dummy = 5`) the claim's total
`commandWidth/lanes + addressWidth/lanes + dummyCycles + dataWidth/(2*lanes)`
is 23 cycles, so starting from the first `SEND_CMD` cycle the
acknowledgment would fall on cycle index 22; in fact no acknowledgment
occurs before cycle index 24, where it actually falls — the transaction
takes 25 cycles. -/
theorem read_total_cycles_cex :
    cmd_width quadCfg / quadCfg.spi_width + addr_width / quadCfg.spi_width +
        quadCfg.dummy + quadCfg.wbone_width / (2 * quadCfg.spi_width) = 23 ∧
    ackAt quadCfg (constRead 9) sendCmdRegs 22 = false ∧
    (∀ k, k < 24 → ackAt quadCfg (constRead 9) sendCmdRegs k = false) ∧
    ackAt quadCfg (constRead 9) sendCmdRegs 24 = true := by decide

/-- Claim C6: in `WaitMore`, a pending request whose direction differs
from the retained direction or whose address is not `next_addr` sends the
machine to `IDLE`; concretely, after a read at 9 retires, a write at 10
(the next address, but a direction change) goes through `IDLE` and then
behaves cycle-for-cycle like a cold-start write: the acknowledgment
arrives 18 cycles after entering `IDLE` in both runs. -/
theorem waitmore_mismatch_full_sequence :
    (∀ (c : Config) (r : Regs) (i : BusIn), i.cyc = true → i.stb = true →
      ((r.fsm = .WAIT_SEND_MORE ∧ ¬(i.adr = r.next_addr ∧ i.we = true)) ∨
        (r.fsm = .WAIT_RECV_MORE ∧ ¬(i.adr = r.next_addr ∧ i.we = false))) →
      (step c r i).2.fsm = .IDLE) ∧
    ((step quadCfg waitRecvRegs (constWrite 10 0xDEADBEEF 0)).2.fsm = .IDLE ∧
      (∀ k, k ≤ 18 →
        ackAt quadCfg (constWrite 10 0xDEADBEEF)
            (step quadCfg waitRecvRegs (constWrite 10 0xDEADBEEF 0)).2 k =
          ackAt quadCfg (constWrite 10 0xDEADBEEF) resetRegs k) ∧
      ackAt quadCfg (constWrite 10 0xDEADBEEF) resetRegs 18 = true ∧
      (∀ k, k < 18 →
        ackAt quadCfg (constWrite 10 0xDEADBEEF) resetRegs k = false)) := by
  constructor
  · intro c r i hcyc hstb h
    obtain ⟨fsm, cnt, sr, iw, na⟩ := r
    rcases h with ⟨hf, hne⟩ | ⟨hf, hne⟩ <;> simp only at hf <;> subst hf <;>
      simp [step, hcyc, hstb, hne]
  · decide

/-- Witness for C6: a same-address write observed in `WAIT_RECV_MORE`
falls back to `IDLE`. -/
theorem waitmore_mismatch_witness :
    (step quadCfg waitRecvRegs (constWrite 10 5 0)).2.fsm = .IDLE :=
  waitmore_mismatch_full_sequence.1 quadCfg waitRecvRegs (constWrite 10 5 0)
    rfl rfl (Or.inr (by decide))

/-- Claim C7: whenever the outputs are enabled, device A is driven with
the top `spi_width` bits of the shift register unconditionally and
device B with the same bits when ganged, else the next `spi_width` bits
down; the gang flag is set exactly in the command and address phases and
outputs are enabled exactly in the command, address and data-write
phases. -/
theorem gang_output_spec (c : Config) (r : Regs) (i : BusIn) :
    ((step c r i).1.dq_oe = true →
      (step c r i).1.dq1_o = r.sr / 2 ^ (sr_width c - c.spi_width) ∧
      (step c r i).1.dq2_o =
        (if (step c r i).1.gang = true
          then r.sr / 2 ^ (sr_width c - c.spi_width)
          else r.sr / 2 ^ (sr_width c - 2 * c.spi_width) % 2 ^ c.spi_width)) ∧
    ((step c r i).1.gang = true ↔ (r.fsm = .SEND_CMD ∨ r.fsm = .SEND_ADDR)) ∧
    ((step c r i).1.dq_oe = true ↔
      (r.fsm = .SEND_CMD ∨ r.fsm = .SEND_ADDR ∨ r.fsm = .SEND_DATA)) := by
  obtain ⟨fsm, cnt, sr, iw, na⟩ := r
  cases fsm <;> simp [step, dq1_out, dq2_out] <;> split <;> simp

/-- Witness for C7 on a `SEND_CMD` cycle: device A sees the top lanes of
the shift register and the gang flag is set. -/
theorem gang_output_spec_witness :
    (step quadCfg sendCmdRegs (constRead 9 0)).1.dq1_o =
      sendCmdRegs.sr / 2 ^ (sr_width quadCfg - quadCfg.spi_width) ∧
    (step quadCfg sendCmdRegs (constRead 9 0)).1.gang = true :=
  ⟨((gang_output_spec quadCfg sendCmdRegs (constRead 9 0)).1 (by decide)).1,
    (gang_output_spec quadCfg sendCmdRegs (constRead 9 0)).2.1.mpr
      (Or.inl rfl)⟩

/-- Claim C9: a burst-continued write enters `SEND_DATA` with the shift
register untouched (the residual contents are what gets shifted out),
whereas the non-continued path loads the bus write data into the shift
register on the final `SEND_ADDR` cycle. -/
theorem burst_write_residual_sr (c : Config) (r : Regs) (i : BusIn)
    (hcyc : i.cyc = true) (hstb : i.stb = true) :
    (r.fsm = .WAIT_SEND_MORE → i.adr = r.next_addr → i.we = true →
      (step c r i).2.fsm = .SEND_DATA ∧ (step c r i).2.sr = r.sr) ∧
    (r.fsm = .SEND_ADDR → r.cycle_counter = addr_width / c.spi_width - 1 →
      r.is_write = true →
      (step c r i).2.fsm = .SEND_DATA ∧
      (step c r i).2.sr = i.dat_w % 2 ^ sr_width c) := by
  obtain ⟨fsm, cnt, sr, iw, na⟩ := r
  constructor
  · intro hf haddr hwe
    simp only at hf
    subst hf
    simp [step, hcyc, hstb, haddr, hwe]
  · intro hf hcnt hw
    simp only at hf hcnt hw
    subst hf
    subst hw
    simp [step, hcnt]

/-- Witness for C9: continuing a write burst at address 10 keeps the
residual `0xCAFEBABE` in the shift register. -/
theorem burst_write_residual_sr_witness :
    (step quadCfg waitSendRegs (constWrite 10 7 0)).2.fsm = .SEND_DATA ∧
    (step quadCfg waitSendRegs (constWrite 10 7 0)).2.sr = waitSendRegs.sr :=
  (burst_write_residual_sr quadCfg waitSendRegs (constWrite 10 7 0)
    rfl rfl).1 rfl rfl rfl

/-- One-cycle characterisation of `SEND_DATA`: the acknowledgment fires
exactly on the cycle where `cycle_counter` hits
`wbone_width//spi_width//2 - 1`, which also moves the FSM to
`WAIT_SEND_MORE` and resets the counter. -/
theorem step_send_data_char (c : Config) (r : Regs) (i : BusIn)
    (hf : r.fsm = .SEND_DATA) :
    (step c r i).1.ack =
      decide (r.cycle_counter = c.wbone_width / c.spi_width / 2 - 1) ∧
    (if r.cycle_counter = c.wbone_width / c.spi_width / 2 - 1
      then (step c r i).2.fsm = .WAIT_SEND_MORE ∧
        (step c r i).2.cycle_counter = 0
      else (step c r i).2.fsm = .SEND_DATA ∧
        (step c r i).2.cycle_counter = (r.cycle_counter + 1) % 32) := by
  obtain ⟨fsm, cnt, sr, iw, na⟩ := r
  simp only at hf
  subst hf
  by_cases h : cnt = c.wbone_width / c.spi_width / 2 - 1 <;> simp [step, h]

/-- One-cycle characterisation of `RECV_DATA_DUMMY`: no acknowledgment;
the state leaves for `RECV_DATA` exactly when `cycle_counter = dummy`. -/
theorem step_recv_dummy_char (c : Config) (r : Regs) (i : BusIn)
    (hf : r.fsm = .RECV_DATA_DUMMY) :
    (step c r i).1.ack = false ∧
    (if r.cycle_counter = c.dummy
      then (step c r i).2.fsm = .RECV_DATA ∧ (step c r i).2.cycle_counter = 0
      else (step c r i).2.fsm = .RECV_DATA_DUMMY ∧
        (step c r i).2.cycle_counter = (r.cycle_counter + 1) % 32) := by
  obtain ⟨fsm, cnt, sr, iw, na⟩ := r
  simp only at hf
  subst hf
  by_cases h : cnt = c.dummy <;> simp [step, h]

/-- One-cycle characterisation of `RECV_DATA`: the acknowledgment fires
exactly on the cycle where `cycle_counter` hits
`wbone_width//spi_width//2` (with no `- 1`), which also moves the FSM to
`WAIT_RECV_MORE` and resets the counter. -/
theorem step_recv_data_char (c : Config) (r : Regs) (i : BusIn)
    (hf : r.fsm = .RECV_DATA) :
    (step c r i).1.ack =
      decide (r.cycle_counter = c.wbone_width / c.spi_width / 2) ∧
    (if r.cycle_counter = c.wbone_width / c.spi_width / 2
      then (step c r i).2.fsm = .WAIT_RECV_MORE ∧
        (step c r i).2.cycle_counter = 0
      else (step c r i).2.fsm = .RECV_DATA ∧
        (step c r i).2.cycle_counter = (r.cycle_counter + 1) % 32) := by
  obtain ⟨fsm, cnt, sr, iw, na⟩ := r
  simp only at hf
  subst hf
  by_cases h : cnt = c.wbone_width / c.spi_width / 2 <;> simp [step, h]

/-- Claim C3: a write's data phase (`SEND_DATA`, entered with the counter
at 0) lasts exactly `wbone_width / (2 * spi_width)` cycles, the
acknowledgment is asserted exactly once — on the final cycle of the
phase — and the machine then enters `WAIT_SEND_MORE`.  Stated for any
configuration whose data-phase length fits the 5-bit counter and any
input stream (the phase does not depend on the bus inputs). -/
theorem send_data_phase_spec (c : Config) (ins : Nat → BusIn) (r : Regs)
    (n : Nat) (hn : n = c.wbone_width / (2 * c.spi_width))
    (hf : r.fsm = .SEND_DATA) (hc : r.cycle_counter = 0)
    (h1 : 1 ≤ n) (h32 : n ≤ 32) :
    (∀ k, k < n → (run c ins r k).fsm = .SEND_DATA ∧
      (ackAt c ins r k = true ↔ k = n - 1)) ∧
    (run c ins r n).fsm = .WAIT_SEND_MORE := by
  have hn' : n = c.wbone_width / c.spi_width / 2 := by
    rw [Nat.div_div_eq_div_mul, Nat.mul_comm, ← hn]
  obtain ⟨m, rfl⟩ : ∃ m, n = m + 1 := ⟨n - 1, by omega⟩
  have main : ∀ k, k ≤ m →
      (run c ins r k).fsm = .SEND_DATA ∧
      (run c ins r k).cycle_counter = k := by
    intro k
    induction k with
    | zero => intro _; exact ⟨hf, hc⟩
    | succ k ih =>
      intro hk
      obtain ⟨hA, hB⟩ := ih (by omega)
      have hne : (run c ins r k).cycle_counter ≠
          c.wbone_width / c.spi_width / 2 - 1 := by
        rw [hB, ← hn']
        omega
      have hch := step_send_data_char c (run c ins r k) (ins k) hA
      rw [if_neg hne] at hch
      refine ⟨hch.2.1, ?_⟩
      rw [show run c ins r (k + 1) = (step c (run c ins r k) (ins k)).2
        from rfl, hch.2.2, hB]
      omega
  constructor
  · intro k hk
    obtain ⟨hA, hB⟩ := main k (by omega)
    refine ⟨hA, ?_⟩
    have hch := step_send_data_char c (run c ins r k) (ins k) hA
    rw [hB, ← hn'] at hch
    show (step c (run c ins r k) (ins k)).1.ack = true ↔ k = m + 1 - 1
    rw [hch.1]
    simp
  · obtain ⟨hA, hB⟩ := main m (le_refl m)
    have hch := step_send_data_char c (run c ins r m) (ins m) hA
    have hcond : (run c ins r m).cycle_counter =
        c.wbone_width / c.spi_width / 2 - 1 := by
      rw [hB, ← hn']
      omega
    rw [if_pos hcond] at hch
    exact hch.2.1

/-- Witness for C3: from the first `SEND_DATA` cycle of the buildable
configuration the acknowledgment fires on cycle 3 and cycle 4 is
`WAIT_SEND_MORE`. -/
theorem send_data_phase_spec_witness :
    (ackAt quadCfg (constWrite 11 3) sendDataRegs 3 = true ↔ 3 = 4 - 1) ∧
    (run quadCfg (constWrite 11 3) sendDataRegs 4).fsm = .WAIT_SEND_MORE :=
  ⟨((send_data_phase_spec quadCfg (constWrite 11 3) sendDataRegs 4
      (by decide) rfl rfl (by decide) (by decide)).1 3 (by decide)).2,
    (send_data_phase_spec quadCfg (constWrite 11 3) sendDataRegs 4
      (by decide) rfl rfl (by decide) (by decide)).2⟩

/-- Claim C2 as amended: the dummy phase of a read lasts `dummy + 1`
cycles (the counter runs from 0 to `dummy` inclusive) and the receive
phase lasts `wbone_width / (2 * spi_width) + 1` cycles with the
acknowledgment on its last cycle, so a cold-start read takes
`commandWidth/lanes + addressWidth/lanes + (dummyCycles + 1) +
(dataWidth/(2 * lanes) + 1)` cycles from entering `SEND_CMD` to the
acknowledgment — two more than the claimed total (25 rather than 23 for
the buildable configuration). -/
theorem read_phase_lengths_amended :
    (∀ (c : Config) (ins : Nat → BusIn) (r : Regs),
      r.fsm = .RECV_DATA_DUMMY → r.cycle_counter = 0 → c.dummy < 32 →
      (∀ k, k ≤ c.dummy → (run c ins r k).fsm = .RECV_DATA_DUMMY ∧
        ackAt c ins r k = false) ∧
      (run c ins r (c.dummy + 1)).fsm = .RECV_DATA ∧
      (run c ins r (c.dummy + 1)).cycle_counter = 0) ∧
    (∀ (c : Config) (ins : Nat → BusIn) (r : Regs) (n : Nat),
      n = c.wbone_width / (2 * c.spi_width) →
      r.fsm = .RECV_DATA → r.cycle_counter = 0 → n < 32 →
      (∀ k, k ≤ n → (run c ins r k).fsm = .RECV_DATA ∧
        (ackAt c ins r k = true ↔ k = n)) ∧
      (run c ins r (n + 1)).fsm = .WAIT_RECV_MORE) ∧
    ((∀ k, k < 24 → ackAt quadCfg (constRead 9) sendCmdRegs k = false) ∧
      ackAt quadCfg (constRead 9) sendCmdRegs 24 = true ∧
      24 + 1 = cmd_width quadCfg / quadCfg.spi_width +
        addr_width / quadCfg.spi_width + (quadCfg.dummy + 1) +
        (quadCfg.wbone_width / (2 * quadCfg.spi_width) + 1)) := by
  refine ⟨?_, ?_, by decide⟩
  · intro c ins r hf hc hd
    have main : ∀ k, k ≤ c.dummy →
        (run c ins r k).fsm = .RECV_DATA_DUMMY ∧
        (run c ins r k).cycle_counter = k := by
      intro k
      induction k with
      | zero => intro _; exact ⟨hf, hc⟩
      | succ k ih =>
        intro hk
        obtain ⟨hA, hB⟩ := ih (by omega)
        have hne : (run c ins r k).cycle_counter ≠ c.dummy := by
          rw [hB]
          omega
        have hch := step_recv_dummy_char c (run c ins r k) (ins k) hA
        rw [if_neg hne] at hch
        refine ⟨hch.2.1, ?_⟩
        rw [show run c ins r (k + 1) = (step c (run c ins r k) (ins k)).2
          from rfl, hch.2.2, hB]
        omega
    have hlast := main c.dummy (le_refl _)
    have hch := step_recv_dummy_char c (run c ins r c.dummy) (ins c.dummy)
      hlast.1
    rw [if_pos hlast.2] at hch
    exact ⟨fun k hk => ⟨(main k hk).1,
      (step_recv_dummy_char c (run c ins r k) (ins k) (main k hk).1).1⟩,
      hch.2.1, hch.2.2⟩
  · intro c ins r n hn hf hc h32
    have hn' : n = c.wbone_width / c.spi_width / 2 := by
      rw [Nat.div_div_eq_div_mul, Nat.mul_comm, ← hn]
    have main : ∀ k, k ≤ n →
        (run c ins r k).fsm = .RECV_DATA ∧
        (run c ins r k).cycle_counter = k := by
      intro k
      induction k with
      | zero => intro _; exact ⟨hf, hc⟩
      | succ k ih =>
        intro hk
        obtain ⟨hA, hB⟩ := ih (by omega)
        have hne : (run c ins r k).cycle_counter ≠
            c.wbone_width / c.spi_width / 2 := by
          rw [hB, ← hn']
          omega
        have hch := step_recv_data_char c (run c ins r k) (ins k) hA
        rw [if_neg hne] at hch
        refine ⟨hch.2.1, ?_⟩
        rw [show run c ins r (k + 1) = (step c (run c ins r k) (ins k)).2
          from rfl, hch.2.2, hB]
        omega
    constructor
    · intro k hk
      obtain ⟨hA, hB⟩ := main k hk
      refine ⟨hA, ?_⟩
      have hch := step_recv_data_char c (run c ins r k) (ins k) hA
      rw [hB, ← hn'] at hch
      show (step c (run c ins r k) (ins k)).1.ack = true ↔ k = n
      rw [hch.1]
      simp
    · obtain ⟨hA, hB⟩ := main n (le_refl n)
      have hch := step_recv_data_char c (run c ins r n) (ins n) hA
      have hcond : (run c ins r n).cycle_counter =
          c.wbone_width / c.spi_width / 2 := by
        rw [hB, ← hn']
      rw [if_pos hcond] at hch
      exact hch.2.1

/-- Witness for the amended C2: with `dummy = 5` the dummy phase is still
in progress on cycle 5 and hands over to `RECV_DATA` on cycle 6; the
receive phase acknowledges on its cycle 4 and leaves on cycle 5. -/
theorem read_phase_lengths_amended_witness :
    ((run quadCfg (constRead 9) dummyRegs 5).fsm = .RECV_DATA_DUMMY ∧
      (run quadCfg (constRead 9) dummyRegs (5 + 1)).fsm = .RECV_DATA) ∧
    ((ackAt quadCfg (constRead 9) recvDataRegs 4 = true ↔ (4 : Nat) = 4) ∧
      (run quadCfg (constRead 9) recvDataRegs (4 + 1)).fsm =
        .WAIT_RECV_MORE) :=
  ⟨⟨((read_phase_lengths_amended.1 quadCfg (constRead 9) dummyRegs rfl rfl
        (by decide)).1 5 (by decide)).1,
      (read_phase_lengths_amended.1 quadCfg (constRead 9) dummyRegs rfl rfl
        (by decide)).2.1⟩,
    ⟨((read_phase_lengths_amended.2.1 quadCfg (constRead 9) recvDataRegs 4
        (by decide) rfl rfl (by decide)).1 4 (by decide)).2,
      (read_phase_lengths_amended.2.1 quadCfg (constRead 9) recvDataRegs 4
        (by decide) rfl rfl (by decide)).2⟩⟩

/-- Claim C10: the cycle counter is a 5-bit register (it advances modulo
32), so with a configured `dummy` of 32 or more the `cycle_counter = dummy`
test that ends the dummy phase never holds: once a read enters
`RECV_DATA_DUMMY` the machine stays there forever and never asserts an
acknowledgment, for any input stream. -/
theorem dummy_ge32_stuck (c : Config) (ins : Nat → BusIn) (r : Regs)
    (hd : 32 ≤ c.dummy) (hf : r.fsm = .RECV_DATA_DUMMY)
    (hc : r.cycle_counter < 32) :
    ∀ n, (run c ins r n).fsm = .RECV_DATA_DUMMY ∧
      ackAt c ins r n = false := by
  have main : ∀ n, (run c ins r n).fsm = .RECV_DATA_DUMMY ∧
      (run c ins r n).cycle_counter < 32 := by
    intro n
    induction n with
    | zero => exact ⟨hf, hc⟩
    | succ n ih =>
      have hne : (run c ins r n).cycle_counter ≠ c.dummy := by omega
      have hch := step_recv_dummy_char c (run c ins r n) (ins n) ih.1
      rw [if_neg hne] at hch
      refine ⟨hch.2.1, ?_⟩
      rw [show run c ins r (n + 1) = (step c (run c ins r n) (ins n)).2
        from rfl, hch.2.2]
      exact Nat.mod_lt _ (by omega)
  intro n
  exact ⟨(main n).1,
    (step_recv_dummy_char c (run c ins r n) (ins n) (main n).1).1⟩

/-- Witness for C10: with `dummy = 32` the machine is still in the dummy
state, without acknowledgment, 40 cycles after entering it. -/
theorem dummy_ge32_stuck_witness :
    (run dummy32Cfg (constRead 9) dummyRegs 40).fsm = .RECV_DATA_DUMMY ∧
    ackAt dummy32Cfg (constRead 9) dummyRegs 40 = false :=
  dummy_ge32_stuck dummy32Cfg (constRead 9) dummyRegs (by decide) rfl
    (by decide) 40

end SpiRamDual
